import Mathlib

/-
Verification of the DealLens deal-flow analysis core.

This file gives a shallow embedding of the numeric scoring pipeline of
the DealLens repository and proves/refutes the stated properties of its
specification. Python floats are modelled as rationals (ℚ), Python dicts
that are read with `.get` are modelled as structures whose fields are
`Option`-valued (a missing key is `none`, and `.get(k, d)` becomes
`Option.getD`), and a Python exception that is caught at a stage
boundary is modelled with `Option`: a helper that can raise returns
`none` on the raising input, and the caller's `try/except` fallback is
an explicit `match`.

Korean string constants from the source are kept verbatim; the tier
vocabulary used throughout is 상 = high, 중 = medium, 하 = low.
-/

/-- Python `max(a, b)` on numbers (CPython returns `b` only when `b > a`). -/
def pymax (a b : ℚ) : ℚ := if b > a then b else a

/-- Python `min(a, b)` on numbers (CPython returns `b` only when `b < a`). -/
def pymin (a b : ℚ) : ℚ := if b < a then b else a

theorem pymax_eq_max (a b : ℚ) : pymax a b = max a b := by
  unfold pymax
  rcases le_or_lt b a with h | h
  · simp [not_lt.mpr h, max_eq_left h]
  · simp [h, max_eq_right h.le]

theorem pymin_eq_min (a b : ℚ) : pymin a b = min a b := by
  unfold pymin
  rcases le_or_lt a b with h | h
  · simp [not_lt.mpr h, min_eq_left h]
  · simp [h, min_eq_right h.le]

/- ------------------------------------------------------------------
Data model of src/agents/win_probability_agent.py
------------------------------------------------------------------ -/

/-- Dataclass `EvaluationScore` (win_probability_agent.py lines 14-22). -/
structure EvaluationScore where
  criteria : String
  weight : ℚ
  our_score : ℚ
  competitor_avg_score : ℚ
  score_difference : ℚ
  weighted_score : ℚ
deriving DecidableEq

/-- Dataclass `RiskFactor` (win_probability_agent.py lines 25-32). -/
structure RiskFactor where
  risk_type : String
  severity : String
  impact : ℚ
  probability : ℚ
  mitigation : Option String
deriving DecidableEq

/-- Dataclass `WinProbabilityResult` (win_probability_agent.py lines 35-43). -/
structure WinProbabilityResult where
  overall_difficulty : String
  win_probability : ℚ
  evaluation_scores : List EvaluationScore
  risk_factors : List RiskFactor
  key_drivers : List String
  confidence_level : ℚ
deriving DecidableEq

/-- Dataclass `CompetitorProfile` (competitor_intelligence_agent.py lines
15-27). `win_history` is a Python `List[Dict[str, str]]`, modelled as a
list of association lists. -/
structure CompetitorProfile where
  company_name : String
  portfolio : List String
  win_history : List (List (String × String))
  price_positioning : String
  tech_stack : List String
  partnerships : List String
  strengths : List String
  weaknesses : List String
  opportunities : List String
  threats : List String
deriving DecidableEq

/-- An evaluation-criterion dict as read by the scoring engine: the body
of `_calculate_evaluation_scores` only calls `criteria.get('item', ...)`
and `criteria.get('weight', ...)`, so only those keys are modelled. -/
structure CriteriaDict where
  item : Option String
  weight : Option ℚ
deriving DecidableEq

/-- The `internal_match` dict as read by the scoring engine
(`_calculate_our_score` reads keys `overall_readiness` and
`confidence_score`). -/
structure InternalMatchDict where
  overall_readiness : Option String
  confidence_score : Option ℚ
deriving DecidableEq

/-- The `competitor_analysis` dict as read by the scoring engine
(`_calculate_competitor_score` reads key `competitor_profiles`). -/
structure CompetitorAnalysisDict where
  competitor_profiles : Option (List CompetitorProfile)
deriving DecidableEq

/-- A risk-flag dict as read by `_analyze_risk_factors` (keys
`risk_type`, `severity`, `mitigation`). -/
structure RiskDict where
  risk_type : Option String
  severity : Option String
  mitigation : Option String
deriving DecidableEq

/- ------------------------------------------------------------------
Scoring engine: WinProbabilityAgent (win_probability_agent.py)
------------------------------------------------------------------ -/

/-- `WinProbabilityAgent._calculate_our_score` (lines 151-164).
`readiness_scores = {'상': 0.9, '중': 0.6, '하': 0.3}`, default 0.3;
the `criteria` argument is received but never read. -/
def _calculate_our_score (criteria : CriteriaDict) (internal_match : InternalMatchDict) : ℚ :=
  let readiness := internal_match.overall_readiness.getD "하"
  let confidence := internal_match.confidence_score.getD 0
  let base_score : ℚ :=
    if readiness = "상" then 9/10
    else if readiness = "중" then 6/10
    else if readiness = "하" then 3/10
    else 3/10
  let adjusted_score := base_score * (1/2 + confidence * (1/2))
  pymin 1 (pymax 0 adjusted_score)

/-- `WinProbabilityAgent._calculate_competitor_score` (lines 166-183).
Mean over profiles of `clamp(0.5 + 0.1*|strengths| - 0.05*|weaknesses|)`,
0.5 when there are no profiles; the `criteria` argument is never read. -/
def _calculate_competitor_score (criteria : CriteriaDict)
    (competitor_analysis : CompetitorAnalysisDict) : ℚ :=
  let profiles := competitor_analysis.competitor_profiles.getD []
  if profiles = [] then 1/2
  else
    let total_score := (profiles.map (fun profile =>
      let strength_score := (profile.strengths.length : ℚ) * (1/10)
      let weakness_penalty := (profile.weaknesses.length : ℚ) * (1/20)
      pymin 1 (pymax 0 (1/2 + strength_score - weakness_penalty)))).sum
    total_score / (profiles.length : ℚ)

/-- `WinProbabilityAgent._calculate_evaluation_scores` (lines 117-149):
one `EvaluationScore` per criterion, in order. -/
def _calculate_evaluation_scores (evaluation_criteria : List CriteriaDict)
    (internal_match : InternalMatchDict)
    (competitor_analysis : CompetitorAnalysisDict) : List EvaluationScore :=
  evaluation_criteria.map (fun criteria =>
    let our_score := _calculate_our_score criteria internal_match
    let competitor_avg_score := _calculate_competitor_score criteria competitor_analysis
    let score_difference := our_score - competitor_avg_score
    let weight := criteria.weight.getD (2/10)
    let weighted_score := score_difference * weight
    { criteria := criteria.item.getD "Unknown"
      weight := weight
      our_score := our_score
      competitor_avg_score := competitor_avg_score
      score_difference := score_difference
      weighted_score := weighted_score })

/-- `WinProbabilityAgent._analyze_risk_factors` (lines 185-215).
`impact_scores = {'상': 0.8, '중': 0.5, '하': 0.2}` default 0.5;
`probability_scores` keyed by risk type, default 0.4. -/
def _analyze_risk_factors (risk_flags : List RiskDict) : List RiskFactor :=
  risk_flags.map (fun risk =>
    let risk_type := risk.risk_type.getD "Unknown"
    let severity := risk.severity.getD "중"
    let impact : ℚ :=
      if severity = "상" then 8/10
      else if severity = "중" then 5/10
      else if severity = "하" then 2/10
      else 5/10
    let probability : ℚ :=
      if risk_type = "모순" then 3/10
      else if risk_type = "불명확" then 6/10
      else if risk_type = "법적" then 2/10
      else if risk_type = "보안" then 4/10
      else if risk_type = "라이선스" then 3/10
      else 4/10
    { risk_type := risk_type
      severity := severity
      impact := impact
      probability := probability
      mitigation := risk.mitigation })

/-- `WinProbabilityAgent._calculate_risk_adjustment` (lines 217-232):
0 when there are no risk factors, else `min(0.3, mean(impact * probability))`. -/
def _calculate_risk_adjustment (risk_factors : List RiskFactor) : ℚ :=
  if risk_factors = [] then 0
  else
    let total_risk := (risk_factors.map (fun risk => risk.impact * risk.probability)).sum
    let avg_risk := total_risk / (risk_factors.length : ℚ)
    pymin (3/10) avg_risk

/-- `WinProbabilityAgent._determine_difficulty_and_probability`
(lines 234-255): converts the adjusted score through
`base_probability = (adjusted + 1) / 2`, subtracts 0.1 per high-severity
risk factor, clamps to [0, 1] and classifies the tier. -/
def _determine_difficulty_and_probability (adjusted_score : ℚ)
    (risk_factors : List RiskFactor) : String × ℚ :=
  let base_probability := (adjusted_score + 1) / 2
  let high_risk_count := (risk_factors.filter (fun r => r.severity = "상")).length
  let risk_penalty := (high_risk_count : ℚ) * (1/10)
  let win_probability := pymax 0 (pymin 1 (base_probability - risk_penalty))
  let difficulty :=
    if win_probability ≥ 7/10 then "하"
    else if win_probability ≥ 4/10 then "중"
    else "상"
  (difficulty, win_probability)

/-- Python `max(xs, key=f)` for a nonempty list: keeps the first element
among those of maximal key (a later element replaces the current best
only when strictly greater). -/
def pymax_by (f : EvaluationScore → ℚ) (hd : EvaluationScore)
    (tl : List EvaluationScore) : EvaluationScore :=
  tl.foldl (fun best x => if f x > f best then x else best) hd

/-- `WinProbabilityAgent._identify_key_drivers` (lines 257-282).
`max(evaluation_scores, key=...)` raises `ValueError` on an empty list;
that raising path is modelled as `none` (the caller's `except` block
handles it). -/
def _identify_key_drivers (evaluation_scores : List EvaluationScore)
    (risk_factors : List RiskFactor) : Option (List String) :=
  match evaluation_scores with
  | [] => none
  | hd :: tl =>
    let top_score := pymax_by (fun x => |x.weighted_score|) hd tl
    let first :=
      if top_score.weighted_score > 0 then top_score.criteria ++ "에서 경쟁 우위"
      else top_score.criteria ++ "에서 경쟁 열위"
    let high_risks := risk_factors.filter (fun r => r.severity = "상")
    let drivers :=
      match high_risks with
      | [] => [first]
      | r :: _ => [first, r.risk_type ++ " 리스크 관리 필요"]
    (drivers ++ ["기술적 역량", "프로젝트 관리 능력", "가격 경쟁력"]).take 5

/-- `WinProbabilityAgent._calculate_confidence` (lines 284-297). -/
def _calculate_confidence (evaluation_scores : List EvaluationScore)
    (risk_factors : List RiskFactor) : ℚ :=
  let criteria_confidence := pymin 1 ((evaluation_scores.length : ℚ) / 5)
  let risk_confidence := pymax (3/10) (1 - (risk_factors.length : ℚ) * (1/10))
  let overall_confidence := (criteria_confidence + risk_confidence) / 2
  pymin 1 (pymax 0 overall_confidence)

/-- `WinProbabilityAgent._create_default_result` (lines 299-308). -/
def _create_default_result : WinProbabilityResult :=
  { overall_difficulty := "중"
    win_probability := 1/2
    evaluation_scores := []
    risk_factors := []
    key_drivers := []
    confidence_level := 0 }

/-- `WinProbabilityAgent.calculate_win_probability` (lines 71-115).
The whole body runs under `try`, and any exception (in particular the
`ValueError` that `_identify_key_drivers` raises on an empty score list)
is caught and replaced by `_create_default_result()`. -/
def calculate_win_probability (evaluation_criteria : List CriteriaDict)
    (internal_match : InternalMatchDict)
    (competitor_analysis : CompetitorAnalysisDict)
    (risk_flags : List RiskDict) : WinProbabilityResult :=
  let evaluation_scores :=
    _calculate_evaluation_scores evaluation_criteria internal_match competitor_analysis
  let risk_factors := _analyze_risk_factors risk_flags
  let total_score := (evaluation_scores.map (fun s => s.weighted_score)).sum
  let risk_adjustment := _calculate_risk_adjustment risk_factors
  let adjusted_score := total_score * (1 - risk_adjustment)
  let dp := _determine_difficulty_and_probability adjusted_score risk_factors
  match _identify_key_drivers evaluation_scores risk_factors with
  | none => _create_default_result
  | some key_drivers =>
    let confidence := _calculate_confidence evaluation_scores risk_factors
    { overall_difficulty := dp.1
      win_probability := dp.2
      evaluation_scores := evaluation_scores
      risk_factors := risk_factors
      key_drivers := key_drivers
      confidence_level := confidence }

/- ------------------------------------------------------------------
Data model of the other agents (rfp_understanding_agent.py,
internal_rag_agent.py, competitor_intelligence_agent.py,
strategy_synthesizer_agent.py)
------------------------------------------------------------------ -/

/-- Dataclass `Requirement` (rfp_understanding_agent.py lines 15-21). -/
structure Requirement where
  category : String
  description : String
  priority : String
  complexity : String
deriving DecidableEq

/-- Dataclass `EvaluationCriteria` (rfp_understanding_agent.py lines 24-31). -/
structure EvaluationCriteria where
  item : String
  weight : ℚ
  min_score : Option ℚ
  evaluation_type : String
  description : String
deriving DecidableEq

/-- Dataclass `RiskFlag` (rfp_understanding_agent.py lines 34-40). -/
structure RiskFlag where
  risk_type : String
  description : String
  severity : String
  mitigation : Option String
deriving DecidableEq

/-- Dataclass `RFPAnalysisResult` (rfp_understanding_agent.py lines 43-51). -/
structure RFPAnalysisResult where
  requirements : List Requirement
  evaluation_criteria : List EvaluationCriteria
  risk_flags : List RiskFlag
  timeline : Option String
  budget_range : Option String
  submission_format : Option String
deriving DecidableEq

/-- Dataclass `ProjectMatch` (internal_rag_agent.py lines 17-24). -/
structure ProjectMatch where
  project_id : String
  project_name : String
  similarity_score : ℚ
  matching_requirements : List String
  success_factors : List String
  lessons_learned : List String
deriving DecidableEq

/-- Dataclass `SkillGap` (internal_rag_agent.py lines 27-33). -/
structure SkillGap where
  skill_area : String
  required_level : String
  current_level : String
  gap_size : String
  improvement_suggestions : List String
deriving DecidableEq

/-- Dataclass `Reference` (internal_rag_agent.py lines 36-43);
`Dict[str, str]` fields are modelled as association lists. -/
structure Reference where
  project_name : String
  client : String
  success_metrics : List (String × String)
  sla_performance : List (String × String)
  customer_feedback : String
  applicable_requirements : List String
deriving DecidableEq

/-- Dataclass `InternalMatchResult` (internal_rag_agent.py lines 46-52). -/
structure InternalMatchResult where
  project_matches : List ProjectMatch
  skill_gaps : List SkillGap
  references : List Reference
  overall_readiness : String
  confidence_score : ℚ
deriving DecidableEq

/-- Dataclass `CompetitiveAnalysis` (competitor_intelligence_agent.py
lines 30-37). -/
structure CompetitiveAnalysis where
  competitor_profiles : List CompetitorProfile
  our_advantages : List String
  our_disadvantages : List String
  differentiation_points : List String
  market_positioning : List (String × String)
deriving DecidableEq

/-- Dataclass `ImprovementAction` (strategy_synthesizer_agent.py lines 13-21). -/
structure ImprovementAction where
  action_type : String
  description : String
  priority : String
  timeline : String
  cost_estimate : Option String
  success_probability : ℚ
deriving DecidableEq

/-- Dataclass `CompanySWOT` (strategy_synthesizer_agent.py lines 24-31). -/
structure CompanySWOT where
  strengths : List String
  weaknesses : List String
  opportunities : List String
  threats : List String
  strategic_focus : List String
deriving DecidableEq

/-- Dataclass `DifferentiationMessage` (strategy_synthesizer_agent.py
lines 34-40). -/
structure DifferentiationMessage where
  key_point : String
  supporting_evidence : List String
  evaluation_criteria : String
  competitive_advantage : String
deriving DecidableEq

/-- Dataclass `StrategySynthesis` (strategy_synthesizer_agent.py lines
43-50). The annotation of `company_swot` is `CompanySWOT`, but Python
does not enforce dataclass annotations and
`DealLensOrchestrator._create_error_result` stores `None` in this field,
so the model must admit a null here. -/
structure StrategySynthesis where
  improvement_actions : List ImprovementAction
  company_swot : Option CompanySWOT
  differentiation_messages : List DifferentiationMessage
  strategic_recommendations : List String
  success_factors : List String
deriving DecidableEq

/-- A JSON value tree, the image of Python `dataclasses.asdict` /
`json.loads`. `json.dumps` followed by `json.loads` is the identity on
such trees, so serialization is modelled at the tree level. -/
inductive Json where
  | null : Json
  | str : String → Json
  | num : ℚ → Json
  | arr : List Json → Json
  | obj : List (String × Json) → Json

/-- Dataclass `AnalysisPipelineResult` (deal_lens_orchestrator.py lines
21-29). `execution_summary` is a `Dict[str, Any]`, modelled as an
association list of JSON values. -/
structure AnalysisPipelineResult where
  rfp_analysis : RFPAnalysisResult
  internal_match : InternalMatchResult
  competitor_analysis : CompetitiveAnalysis
  win_probability : WinProbabilityResult
  strategy_synthesis : StrategySynthesis
  execution_summary : List (String × Json)

/- ------------------------------------------------------------------
Pipeline orchestrator (deal_lens_orchestrator.py)
------------------------------------------------------------------ -/

/-- `DealLensOrchestrator.default_competitors` (lines 48-51). -/
def default_competitors : List String :=
  ["삼성 SDS", "LG CNS", "포스코DX", "KT", "현대 오토에버", "카카오", "CJ 올리브네트웍스"]

/-- The competitor-list selection at the top of
`DealLensOrchestrator.run_full_analysis` (lines 59-60): the default
list is substituted only when the argument is Python `None`; any actual
list — including the empty list — is passed through unchanged. -/
def effective_competitors (competitors : Option (List String)) : List String :=
  match competitors with
  | none => default_competitors
  | some l => l

/-- The names in `CompetitorIntelligenceAgent.competitor_data`
(competitor_intelligence_agent.py lines 67-131). -/
def competitor_db_names : List String :=
  ["삼성 SDS", "LG CNS", "포스코DX", "KT", "현대 오토에버", "카카오", "CJ 올리브네트웍스"]

/-- The profile-collection loop of
`CompetitorIntelligenceAgent.analyze_competitors` (lines 137-141): one
profile is appended per entry of the competitor list that is a key of
`competitor_data`, duplicates included; no truncation is applied. This
models the names of the analysed profiles, in order. -/
def analyzed_profile_names (competitors : List String) : List String :=
  competitors.filter (fun competitor => competitor_db_names.contains competitor)

/-- The dict returned by `DealLensOrchestrator.validate_inputs`
(lines 230-250). -/
structure ValidationResult where
  is_valid : Bool
  errors : List String
  warnings : List String
deriving DecidableEq

/-- Python `str.strip()`: drops leading and trailing whitespace. -/
def py_strip (s : String) : String :=
  String.mk (((s.data.dropWhile Char.isWhitespace).reverse.dropWhile
    Char.isWhitespace).reverse)

/-- `DealLensOrchestrator.validate_inputs` (lines 230-250): an error
(and `is_valid = False`) when the RFP content is falsy or shorter than
100 characters after stripping; warnings — only warnings — for an empty
competitor list and for one longer than 10. -/
def validate_inputs (rfp_content : String) (competitors : List String) : ValidationResult :=
  let rfp_bad : Bool := rfp_content == "" || decide ((py_strip rfp_content).length < 100)
  let errors : List String :=
    if rfp_bad then ["RFP 내용이 너무 짧습니다. 최소 100자 이상 필요합니다."] else []
  let warnings_empty : List String :=
    if competitors = [] then ["경쟁사 목록이 비어있습니다. 기본 목록을 사용합니다."] else []
  let warnings_many : List String :=
    if competitors.length > 10 then ["경쟁사가 너무 많습니다. 상위 10개만 분석합니다."] else []
  { is_valid := !rfp_bad
    errors := errors
    warnings := warnings_empty ++ warnings_many }

/-- `DealLensOrchestrator._create_error_result` (lines 196-228),
field for field. Note `company_swot := none`: the source passes
`company_swot=None`. -/
def _create_error_result : AnalysisPipelineResult :=
  { rfp_analysis :=
      { requirements := [], evaluation_criteria := [], risk_flags := []
        timeline := none, budget_range := none, submission_format := none }
    internal_match :=
      { project_matches := [], skill_gaps := [], references := []
        overall_readiness := "하", confidence_score := 0 }
    competitor_analysis :=
      { competitor_profiles := [], our_advantages := [], our_disadvantages := []
        differentiation_points := [], market_positioning := [] }
    win_probability :=
      { overall_difficulty := "중", win_probability := 1/2
        evaluation_scores := [], risk_factors := [], key_drivers := []
        confidence_level := 0 }
    strategy_synthesis :=
      { improvement_actions := [], company_swot := none
        differentiation_messages := [], strategic_recommendations := []
        success_factors := [] }
    execution_summary := [("error", Json.str "분석 실행 실패")] }

/-- Round-half-to-even on a rational, the rounding CPython string
formatting applies. -/
def round_half_even (q : ℚ) : ℤ :=
  let f := ⌊q⌋
  let frac := q - (f : ℚ)
  if frac < 1/2 then f
  else if frac > 1/2 then f + 1
  else if f % 2 = 0 then f else f + 1

/-- Python `f"{x:.1%}"` for the nonnegative probabilities this system
formats: the value times 100, rendered with one decimal digit and a
percent sign. -/
def pct_string (q : ℚ) : String :=
  let n := round_half_even (q * 1000)
  toString (n / 10) ++ "." ++ toString (n % 10) ++ "%"

/-- `DealLensOrchestrator.get_analysis_summary` (lines 151-162).
`RFPAnalysisResult` has no `title` attribute, so the `hasattr` guard
always selects the constant; the win probability is formatted with
`f"{...:.1%}"`; the other entries are list lengths and the readiness
tier. -/
def get_analysis_summary (result : AnalysisPipelineResult) : List (String × Json) :=
  [("프로젝트_제목", Json.str "RFP 분석"),
   ("수주_난이도", Json.str result.win_probability.overall_difficulty),
   ("수주_확률", Json.str (pct_string result.win_probability.win_probability)),
   ("요구사항_수", Json.num (result.rfp_analysis.requirements.length : ℚ)),
   ("경쟁사_수", Json.num (result.competitor_analysis.competitor_profiles.length : ℚ)),
   ("리스크_수", Json.num (result.rfp_analysis.risk_flags.length : ℚ)),
   ("보완책_수", Json.num (result.strategy_synthesis.improvement_actions.length : ℚ)),
   ("전체_준비도", Json.str result.internal_match.overall_readiness)]

/-- `export_analysis_report(result, "summary")` (lines 169-171) at the
JSON-tree level: `json.dumps(self.get_analysis_summary(result))`. -/
def export_summary_json (result : AnalysisPipelineResult) : Json :=
  Json.obj (get_analysis_summary result)

/- ------------------------------------------------------------------
JSON serialization of WinProbabilityResult
(`export_analysis_report(result, "json")`, orchestrator lines 164-176,
is `json.dumps(asdict(result))`; the `WinProbabilityResult` subtree of
that export is modelled here, with `json.dumps`/`json.loads` treated as
the identity on trees.)
------------------------------------------------------------------ -/

/-- `asdict` image of an `EvaluationScore`. -/
def score_to_json (s : EvaluationScore) : Json :=
  Json.obj [("criteria", Json.str s.criteria), ("weight", Json.num s.weight),
    ("our_score", Json.num s.our_score),
    ("competitor_avg_score", Json.num s.competitor_avg_score),
    ("score_difference", Json.num s.score_difference),
    ("weighted_score", Json.num s.weighted_score)]

/-- `asdict` image of an `Optional[str]` field. -/
def opt_string_to_json : Option String → Json
  | none => Json.null
  | some s => Json.str s

/-- `asdict` image of a `RiskFactor`. -/
def risk_to_json (r : RiskFactor) : Json :=
  Json.obj [("risk_type", Json.str r.risk_type), ("severity", Json.str r.severity),
    ("impact", Json.num r.impact), ("probability", Json.num r.probability),
    ("mitigation", opt_string_to_json r.mitigation)]

/-- `asdict` image of a `WinProbabilityResult`: the full result tree. -/
def win_result_to_json (r : WinProbabilityResult) : Json :=
  Json.obj [("overall_difficulty", Json.str r.overall_difficulty),
    ("win_probability", Json.num r.win_probability),
    ("evaluation_scores", Json.arr (r.evaluation_scores.map score_to_json)),
    ("risk_factors", Json.arr (r.risk_factors.map risk_to_json)),
    ("key_drivers", Json.arr (r.key_drivers.map Json.str)),
    ("confidence_level", Json.num r.confidence_level)]

/-- Element-wise reader for a serialized list: succeeds only when every
element reads back. -/
def read_list {α : Type} (g : Json → Option α) : List Json → Option (List α)
  | [] => some []
  | x :: xs =>
    match g x, read_list g xs with
    | some y, some ys => some (y :: ys)
    | _, _ => none

/-- Reader for the `asdict` image of an `EvaluationScore`. -/
def json_to_score : Json → Option EvaluationScore
  | Json.obj [("criteria", Json.str c), ("weight", Json.num w),
      ("our_score", Json.num o), ("competitor_avg_score", Json.num ca),
      ("score_difference", Json.num d), ("weighted_score", Json.num ws)] =>
      some ⟨c, w, o, ca, d, ws⟩
  | _ => none

/-- Reader for a serialized `Optional[str]`. -/
def json_to_opt_string : Json → Option (Option String)
  | Json.null => some none
  | Json.str s => some (some s)
  | _ => none

/-- Reader for the `asdict` image of a `RiskFactor`. -/
def json_to_risk : Json → Option RiskFactor
  | Json.obj [("risk_type", Json.str t), ("severity", Json.str sv),
      ("impact", Json.num i), ("probability", Json.num p), ("mitigation", m)] =>
      (match json_to_opt_string m with
       | some mit => some ⟨t, sv, i, p, mit⟩
       | none => none)
  | _ => none

/-- Reader for a serialized string. -/
def json_to_string_val : Json → Option String
  | Json.str s => some s
  | _ => none

/-- Reader for the `asdict` image of a `WinProbabilityResult`. -/
def json_to_win_result : Json → Option WinProbabilityResult
  | Json.obj [("overall_difficulty", Json.str d), ("win_probability", Json.num w),
      ("evaluation_scores", Json.arr es), ("risk_factors", Json.arr rs),
      ("key_drivers", Json.arr ks), ("confidence_level", Json.num c)] =>
      (match read_list json_to_score es, read_list json_to_risk rs,
             read_list json_to_string_val ks with
       | some es2, some rs2, some ks2 => some ⟨d, w, es2, rs2, ks2, c⟩
       | _, _, _ => none)
  | _ => none

/- ------------------------------------------------------------------
Strategy synthesizer (strategy_synthesizer_agent.py)
------------------------------------------------------------------ -/

/-- The `rfp_analysis` dict as read by
`StrategySynthesizerAgent._generate_improvement_actions` (key
`risk_flags`, whose items are read through attribute access). -/
structure SynthRfpDict where
  risk_flags : Option (List RiskFlag)
deriving DecidableEq

/-- The `internal_match` dict as read by
`StrategySynthesizerAgent._generate_improvement_actions` (key
`skill_gaps`, whose items are read through attribute access). -/
structure SynthInternalMatchDict where
  skill_gaps : Option (List SkillGap)
deriving DecidableEq

/-- The `win_probability` dict argument of the same method; it is
received but never read there. -/
structure SynthWinProbDict where
  overall_difficulty : Option String
  win_probability : Option ℚ
deriving DecidableEq

/-- `StrategySynthesizerAgent._generate_improvement_actions`
(lines 123-185), translated loop for loop: the skill-gap loop appends
one action per 심각 (severe) or 부족 (lacking) gap, the risk loop appends
one action per 상 (high) severity flag, then two generic actions are
extended onto the list and `actions[:8]` is returned. -/
def _generate_improvement_actions (rfp_analysis : SynthRfpDict)
    (internal_match : SynthInternalMatchDict)
    (win_probability : SynthWinProbDict) : List ImprovementAction :=
  let actions : List ImprovementAction := []
  let skill_gaps := internal_match.skill_gaps.getD []
  let actions := skill_gaps.foldl (fun actions gap =>
    if gap.gap_size = "심각" then
      actions ++ [{ action_type := "내부보강"
                    description := gap.skill_area ++ " 전문가 영입"
                    priority := "상", timeline := "1-2개월"
                    cost_estimate := some "높음", success_probability := 8/10 }]
    else if gap.gap_size = "부족" then
      actions ++ [{ action_type := "외부파트너"
                    description := gap.skill_area ++ " 파트너십 구축"
                    priority := "중", timeline := "2-3개월"
                    cost_estimate := some "중간", success_probability := 7/10 }]
    else actions) actions
  let risk_flags := rfp_analysis.risk_flags.getD []
  let actions := risk_flags.foldl (fun actions risk =>
    if risk.severity = "상" then
      actions ++ [{ action_type := "스펙질의"
                    description := risk.risk_type ++ " 관련 요구사항 명확화"
                    priority := "상", timeline := "1주"
                    cost_estimate := some "낮음", success_probability := 9/10 }]
    else actions) actions
  let actions := actions ++
    [{ action_type := "PoC제안", description := "핵심 기술 PoC 제안"
       priority := "중", timeline := "2-4주"
       cost_estimate := some "중간", success_probability := 6/10 },
     { action_type := "내부보강", description := "프로젝트 관리 프로세스 개선"
       priority := "하", timeline := "1개월"
       cost_estimate := some "낮음", success_probability := 8/10 }]
  actions.take 8

/-- Spec-side description of the per-gap action: one
internal-reinforcement (내부보강) action of priority high (상) per severe
(심각) skill gap, one external-partnership (외부파트너) action of priority
medium (중) per lacking (부족) gap, nothing otherwise. -/
def gap_action_spec (gap : SkillGap) : Option ImprovementAction :=
  if gap.gap_size = "심각" then
    some { action_type := "내부보강", description := gap.skill_area ++ " 전문가 영입"
           priority := "상", timeline := "1-2개월"
           cost_estimate := some "높음", success_probability := 8/10 }
  else if gap.gap_size = "부족" then
    some { action_type := "외부파트너", description := gap.skill_area ++ " 파트너십 구축"
           priority := "중", timeline := "2-3개월"
           cost_estimate := some "중간", success_probability := 7/10 }
  else none

/-- Spec-side description of the per-risk action: one spec-clarification
(스펙질의) action of priority high (상) per high-severity (상) risk flag,
nothing otherwise. -/
def risk_action_spec (risk : RiskFlag) : Option ImprovementAction :=
  if risk.severity = "상" then
    some { action_type := "스펙질의", description := risk.risk_type ++ " 관련 요구사항 명확화"
           priority := "상", timeline := "1주"
           cost_estimate := some "낮음", success_probability := 9/10 }
  else none

/-- Spec-side fixed tail of generic actions. -/
def generic_action_tail : List ImprovementAction :=
  [{ action_type := "PoC제안", description := "핵심 기술 PoC 제안"
     priority := "중", timeline := "2-4주"
     cost_estimate := some "중간", success_probability := 6/10 },
   { action_type := "내부보강", description := "프로젝트 관리 프로세스 개선"
     priority := "하", timeline := "1개월"
     cost_estimate := some "낮음", success_probability := 8/10 }]

/-- Spec-side composition, following the claim's words: gap actions in
gap order, then risk actions in flag order, then the generic tail, the
whole list capped at 8 entries. -/
def improvement_actions_spec (skill_gaps : List SkillGap)
    (risk_flags : List RiskFlag) : List ImprovementAction :=
  (skill_gaps.filterMap gap_action_spec ++ risk_flags.filterMap risk_action_spec ++
    generic_action_tail).take 8

/- ------------------------------------------------------------------
Shared helper lemmas
------------------------------------------------------------------ -/

theorem foldl_step_filterMap {α β : Type} (g : α → Option β)
    (step : List β → α → List β)
    (hstep : ∀ acc x, step acc x = acc ++ (g x).toList) :
    ∀ (l : List α) (acc : List β), l.foldl step acc = acc ++ l.filterMap g := by
  intro l
  induction l with
  | nil => intro acc; simp
  | cons x xs ih =>
    intro acc
    rw [List.foldl_cons, ih, hstep]
    cases hx : g x <;> simp [List.filterMap_cons, hx]

theorem read_list_roundtrip {α : Type} (f : α → Json) (g : Json → Option α)
    (h : ∀ x, g (f x) = some x) :
    ∀ l : List α, read_list g (l.map f) = some l := by
  intro l
  induction l with
  | nil => rfl
  | cons x xs ih => simp [read_list, h, ih]

theorem json_to_score_roundtrip (s : EvaluationScore) :
    json_to_score (score_to_json s) = some s := rfl

theorem json_to_risk_roundtrip (r : RiskFactor) :
    json_to_risk (risk_to_json r) = some r := by
  cases r with
  | mk t sv i p m => cases m <;> rfl

theorem json_to_string_val_roundtrip (s : String) :
    json_to_string_val (Json.str s) = some s := rfl

theorem clamp_lo_bounds (x : ℚ) :
    0 ≤ pymax 0 (pymin 1 x) ∧ pymax 0 (pymin 1 x) ≤ 1 := by
  rw [pymax_eq_max, pymin_eq_min]
  exact ⟨le_max_left 0 _, max_le (by norm_num) (min_le_left 1 x)⟩

theorem clamp_hi_bounds (x : ℚ) :
    0 ≤ pymin 1 (pymax 0 x) ∧ pymin 1 (pymax 0 x) ≤ 1 := by
  rw [pymax_eq_max, pymin_eq_min]
  exact ⟨le_min (by norm_num) (le_max_left 0 x), min_le_left 1 _⟩

theorem determine_wp_bounds (adj : ℚ) (rf : List RiskFactor) :
    0 ≤ (_determine_difficulty_and_probability adj rf).2 ∧
    (_determine_difficulty_and_probability adj rf).2 ≤ 1 :=
  clamp_lo_bounds _

theorem confidence_bounds (es : List EvaluationScore) (rf : List RiskFactor) :
    0 ≤ _calculate_confidence es rf ∧ _calculate_confidence es rf ≤ 1 :=
  clamp_hi_bounds _

theorem analyze_risk_nonneg (rf : List RiskDict) :
    ∀ r ∈ _analyze_risk_factors rf, 0 ≤ r.impact * r.probability := by
  intro r hr
  simp only [_analyze_risk_factors, List.mem_map] at hr
  obtain ⟨x, -, rfl⟩ := hr
  dsimp only
  refine mul_nonneg ?_ ?_ <;> (repeat' split) <;> norm_num

theorem risk_adjustment_bounds (rf : List RiskDict) :
    0 ≤ _calculate_risk_adjustment (_analyze_risk_factors rf) ∧
    _calculate_risk_adjustment (_analyze_risk_factors rf) ≤ 3/10 := by
  unfold _calculate_risk_adjustment
  split
  · norm_num
  · rw [pymin_eq_min]
    constructor
    · refine le_min (by norm_num) (div_nonneg ?_ (by positivity))
      refine List.sum_nonneg ?_
      intro x hx
      simp only [List.mem_map] at hx
      obtain ⟨r, hr, rfl⟩ := hx
      exact analyze_risk_nonneg rf r hr
    · exact min_le_left _ _

theorem tier_iff (w : ℚ) :
    ((if w ≥ 7/10 then "하" else if w ≥ 4/10 then "중" else "상") = "하" ↔ w ≥ 7/10) ∧
    ((if w ≥ 7/10 then "하" else if w ≥ 4/10 then "중" else "상") = "중" ↔
      4/10 ≤ w ∧ w < 7/10) ∧
    ((if w ≥ 7/10 then "하" else if w ≥ 4/10 then "중" else "상") = "상" ↔ w < 4/10) := by
  by_cases h7 : w ≥ 7/10
  · simp only [if_pos h7]
    refine ⟨by simp [h7], ⟨fun h => absurd h (by decide), ?_⟩,
      ⟨fun h => absurd h (by decide), fun h => absurd h7 (not_le.mpr (by linarith))⟩⟩
    rintro ⟨-, hlt⟩
    exact absurd h7 (not_le.mpr hlt)
  · by_cases h4 : w ≥ 4/10
    · simp only [if_neg h7, if_pos h4]
      refine ⟨⟨fun h => absurd h (by decide), fun h => absurd h h7⟩,
        by simp [h4, lt_of_not_le h7], ⟨fun h => absurd h (by decide), ?_⟩⟩
      intro h
      exact absurd h4 (not_le.mpr h)
    · simp only [if_neg h7, if_neg h4]
      refine ⟨⟨fun h => absurd h (by decide), fun h => absurd h h7⟩,
        ⟨fun h => absurd h (by decide), ?_⟩, by simp [lt_of_not_le h4]⟩
      rintro ⟨hle, -⟩
      exact absurd hle h4

/- ------------------------------------------------------------------
Claims
------------------------------------------------------------------ -/

/-- A concrete internal-match dict with no keys set. -/
def c1_match : InternalMatchDict := ⟨none, none⟩

/-- A concrete competitor-analysis dict with no profiles key. -/
def c1_analysis : CompetitorAnalysisDict := ⟨none⟩

/-- A concrete high-severity (상) security risk flag dict. -/
def c1_high_risk : RiskDict := ⟨some "보안", some "상", none⟩

/-- C1 counterexample: with exactly one high-severity risk flag and an
empty evaluation-criteria list, `calculate_win_probability` does NOT
return `win_probability = 0.4`; the key-driver step raises on the empty
score list and the engine falls back to the default result, whose
win probability is 0.5. -/
theorem claim_C1_counterexample :
    (calculate_win_probability [] c1_match c1_analysis [c1_high_risk]).win_probability ≠ 2/5 := by
  have h : (calculate_win_probability [] c1_match c1_analysis
      [c1_high_risk]).win_probability = 1/2 := rfl
  rw [h]
  norm_num

/-- C1 (amended): for every input consisting of exactly one high-severity
risk flag and an empty evaluation-criteria list,
`calculate_win_probability` returns a well-formed result without
crashing — but it is the default fallback result with
`win_probability = 0.5`: the risk penalty of 0.1 is never applied,
because `_identify_key_drivers` raises on the empty score list and the
`except` branch substitutes `_create_default_result()`. -/
theorem claim_C1_amended :
    ∀ (im : InternalMatchDict) (ca : CompetitorAnalysisDict) (risk : RiskDict),
    risk.severity = some "상" →
    calculate_win_probability [] im ca [risk] = _create_default_result ∧
    (calculate_win_probability [] im ca [risk]).win_probability = 1/2 := by
  intro im ca risk _
  exact ⟨rfl, rfl⟩

/-- C1 witness: the amended theorem applied at the concrete
high-severity flag. -/
theorem claim_C1_witness :
    calculate_win_probability [] c1_match c1_analysis [c1_high_risk] = _create_default_result ∧
    (calculate_win_probability [] c1_match c1_analysis [c1_high_risk]).win_probability = 1/2 :=
  claim_C1_amended c1_match c1_analysis c1_high_risk rfl

/-- C2 counterexample: the orchestrator's error result is not fully
populated — the `company_swot` field of its strategy synthesis is null
(`None` in the source), so a caller cannot safely read every field. -/
theorem claim_C2_counterexample :
    _create_error_result.strategy_synthesis.company_swot = none := rfl

/-- C2 (amended): for every failed pipeline run the orchestrator returns
the fixed error result, whose components are fully constructed with the
documented defaults — except that `strategy_synthesis.company_swot` is
null (and the three optional RFP metadata fields are `None` by their
`Optional` annotations), so a caller reading the SWOT gets a null
rather than a populated value. -/
theorem claim_C2_amended :
    _create_error_result.rfp_analysis = ⟨[], [], [], none, none, none⟩ ∧
    _create_error_result.internal_match = ⟨[], [], [], "하", 0⟩ ∧
    _create_error_result.competitor_analysis = ⟨[], [], [], [], []⟩ ∧
    _create_error_result.win_probability = ⟨"중", 1/2, [], [], [], 0⟩ ∧
    _create_error_result.strategy_synthesis.improvement_actions = [] ∧
    _create_error_result.strategy_synthesis.company_swot = none ∧
    _create_error_result.strategy_synthesis.differentiation_messages = [] ∧
    _create_error_result.strategy_synthesis.strategic_recommendations = [] ∧
    _create_error_result.strategy_synthesis.success_factors = [] ∧
    _create_error_result.execution_summary = [("error", Json.str "분석 실행 실패")] :=
  ⟨rfl, rfl, rfl, rfl, rfl, rfl, rfl, rfl, rfl, rfl⟩

/-- An RFP content string of 120 characters (passes validation). -/
def valid_rfp : String := String.mk (List.replicate 120 'a')

/-- An 11-entry competitor list whose every entry is a known database
name. -/
def eleven_kt : List String := List.replicate 11 "KT"

set_option maxRecDepth 8192

/-- C3 code evaluation at the failing input: an 11-entry competitor list
passes validation with only the truncation warning (no error), but the
pipeline applies no truncation — `run_full_analysis` passes the list
through unchanged and the competitor stage builds one profile per entry,
so 11 (not 10) competitors are analysed, contradicting the warning's own
text. -/
theorem claim_C3_code_eval :
    (validate_inputs valid_rfp eleven_kt).is_valid = true ∧
    (validate_inputs valid_rfp eleven_kt).errors = [] ∧
    (validate_inputs valid_rfp eleven_kt).warnings =
      ["경쟁사가 너무 많습니다. 상위 10개만 분석합니다."] ∧
    effective_competitors (some eleven_kt) = eleven_kt ∧
    analyzed_profile_names eleven_kt = eleven_kt ∧
    (analyzed_profile_names eleven_kt).length = 11 :=
  ⟨by decide, by decide, by decide, rfl, by decide, by decide⟩

/-- C4 code evaluation at the failing input: for an empty competitor
list the validator emits the substitution warning (no error), but
`run_full_analysis` substitutes the default list only when the argument
is Python `None` — an actual empty list is passed through unchanged, so
the run continues with zero competitors instead of the default seven. -/
theorem claim_C4_code_eval :
    effective_competitors (some ([] : List String)) = [] ∧
    effective_competitors (some ([] : List String)) ≠ default_competitors ∧
    effective_competitors none = default_competitors ∧
    (validate_inputs valid_rfp []).is_valid = true ∧
    (validate_inputs valid_rfp []).errors = [] ∧
    (validate_inputs valid_rfp []).warnings =
      ["경쟁사 목록이 비어있습니다. 기본 목록을 사용합니다."] ∧
    analyzed_profile_names [] = [] :=
  ⟨rfl, by decide, rfl, by decide, by decide, by decide, rfl⟩

/-- C5: with both the evaluation-criteria list and the risk-flag list
empty, `calculate_win_probability` returns (for every internal match and
competitor analysis) the well-formed default result with
`win_probability = 0.5` and difficulty tier 중 (medium); no exception
escapes to the caller. -/
theorem claim_C5 : ∀ (im : InternalMatchDict) (ca : CompetitorAnalysisDict),
    calculate_win_probability [] im ca [] = _create_default_result ∧
    (calculate_win_probability [] im ca []).win_probability = 1/2 ∧
    (calculate_win_probability [] im ca []).overall_difficulty = "중" := by
  intro im ca
  exact ⟨rfl, rfl, rfl⟩

/-- C6: for every computed win probability, the difficulty tier is
하 (low) exactly when `win_probability ≥ 0.7`, 중 (medium) exactly when
`0.4 ≤ win_probability < 0.7`, and 상 (high) otherwise; in particular a
win probability of exactly 0.7 classifies as 하 and exactly 0.4 as 중. -/
theorem claim_C6 :
    (∀ (adjusted_score : ℚ) (risk_factors : List RiskFactor),
      ((_determine_difficulty_and_probability adjusted_score risk_factors).1 = "하" ↔
        (_determine_difficulty_and_probability adjusted_score risk_factors).2 ≥ 7/10) ∧
      ((_determine_difficulty_and_probability adjusted_score risk_factors).1 = "중" ↔
        4/10 ≤ (_determine_difficulty_and_probability adjusted_score risk_factors).2 ∧
          (_determine_difficulty_and_probability adjusted_score risk_factors).2 < 7/10) ∧
      ((_determine_difficulty_and_probability adjusted_score risk_factors).1 = "상" ↔
        (_determine_difficulty_and_probability adjusted_score risk_factors).2 < 4/10)) ∧
    (_determine_difficulty_and_probability (2/5) []).2 = 7/10 ∧
    (_determine_difficulty_and_probability (2/5) []).1 = "하" ∧
    (_determine_difficulty_and_probability (-(1/5)) []).2 = 2/5 ∧
    (_determine_difficulty_and_probability (-(1/5)) []).1 = "중" := by
  constructor
  · intro adj rf
    have h1 : (_determine_difficulty_and_probability adj rf).1 =
        (if (_determine_difficulty_and_probability adj rf).2 ≥ 7/10 then "하"
         else if (_determine_difficulty_and_probability adj rf).2 ≥ 4/10 then "중"
         else "상") := rfl
    rw [h1]
    exact tier_iff _
  · refine ⟨?_, ?_, ?_, ?_⟩ <;>
      norm_num [_determine_difficulty_and_probability, pymin, pymax]

/-- C7: for every input, the scoring engine's outputs are in range:
`0 ≤ win_probability ≤ 1`, `0 ≤ confidence ≤ 1`, and the risk
adjustment computed from any list of risk flags satisfies
`0 ≤ risk_adjustment ≤ 0.3`. -/
theorem claim_C7 :
    (∀ (ec : List CriteriaDict) (im : InternalMatchDict)
       (ca : CompetitorAnalysisDict) (rf : List RiskDict),
      0 ≤ (calculate_win_probability ec im ca rf).win_probability ∧
      (calculate_win_probability ec im ca rf).win_probability ≤ 1 ∧
      0 ≤ (calculate_win_probability ec im ca rf).confidence_level ∧
      (calculate_win_probability ec im ca rf).confidence_level ≤ 1) ∧
    (∀ rf : List RiskDict,
      0 ≤ _calculate_risk_adjustment (_analyze_risk_factors rf) ∧
      _calculate_risk_adjustment (_analyze_risk_factors rf) ≤ 3/10) := by
  constructor
  · intro ec im ca rf
    rcases hkd : _identify_key_drivers (_calculate_evaluation_scores ec im ca)
        (_analyze_risk_factors rf) with _ | kd <;>
      simp only [calculate_win_probability, hkd]
    · exact ⟨by norm_num [_create_default_result], by norm_num [_create_default_result],
        by norm_num [_create_default_result], by norm_num [_create_default_result]⟩
    · exact ⟨(determine_wp_bounds _ _).1, (determine_wp_bounds _ _).2,
        (confidence_bounds _ _).1, (confidence_bounds _ _).2⟩
  · intro rf
    exact risk_adjustment_bounds rf

/-- C8: the improvement-action list equals the spec-side composition:
one 내부보강 action of priority 상 per 심각 skill gap, one 외부파트너 action of
priority 중 per 부족 gap (in gap order), then one 스펙질의 action of priority
상 per 상-severity risk flag (in flag order), then the fixed generic
tail, the whole list capped at 8 entries. -/
theorem claim_C8 : ∀ (rfp : SynthRfpDict) (im : SynthInternalMatchDict)
    (wp : SynthWinProbDict),
    _generate_improvement_actions rfp im wp =
      improvement_actions_spec (im.skill_gaps.getD []) (rfp.risk_flags.getD []) := by
  intro rfp im wp
  have hg : ∀ (l : List SkillGap) (acc : List ImprovementAction),
      l.foldl (fun actions gap =>
        if gap.gap_size = "심각" then
          actions ++ [{ action_type := "내부보강"
                        description := gap.skill_area ++ " 전문가 영입"
                        priority := "상", timeline := "1-2개월"
                        cost_estimate := some "높음", success_probability := 8/10 }]
        else if gap.gap_size = "부족" then
          actions ++ [{ action_type := "외부파트너"
                        description := gap.skill_area ++ " 파트너십 구축"
                        priority := "중", timeline := "2-3개월"
                        cost_estimate := some "중간", success_probability := 7/10 }]
        else actions) acc = acc ++ l.filterMap gap_action_spec := by
    intro l acc
    refine foldl_step_filterMap gap_action_spec _ ?_ l acc
    intro a g
    unfold gap_action_spec
    by_cases h1 : g.gap_size = "심각"
    · simp [h1]
    · by_cases h2 : g.gap_size = "부족" <;> simp [h1, h2]
  have hr : ∀ (l : List RiskFlag) (acc : List ImprovementAction),
      l.foldl (fun actions risk =>
        if risk.severity = "상" then
          actions ++ [{ action_type := "스펙질의"
                        description := risk.risk_type ++ " 관련 요구사항 명확화"
                        priority := "상", timeline := "1주"
                        cost_estimate := some "낮음", success_probability := 9/10 }]
        else actions) acc = acc ++ l.filterMap risk_action_spec := by
    intro l acc
    refine foldl_step_filterMap risk_action_spec _ ?_ l acc
    intro a g
    unfold risk_action_spec
    by_cases h1 : g.severity = "상" <;> simp [h1]
  unfold _generate_improvement_actions improvement_actions_spec
  dsimp only
  rw [hg, hr]
  simp [generic_action_tail]

/-- C9 counterexample: two pipeline results that differ only in the win
probability's confidence level have identical summary-mode exports —
`confidence_level` is absent from the summary, so summary-mode
serialization cannot round-trip the result field for field. -/
theorem claim_C9_counterexample :
    export_summary_json _create_error_result =
      export_summary_json
        { _create_error_result with
          win_probability :=
            { overall_difficulty := "중", win_probability := 1/2
              evaluation_scores := [], risk_factors := [], key_drivers := []
              confidence_level := 7/10 } } ∧
    _create_error_result.win_probability.confidence_level ≠ (7/10 : ℚ) := by
  constructor
  · rfl
  · have h : _create_error_result.win_probability.confidence_level = 0 := rfl
    rw [h]
    norm_num

/-- C9 (amended): full-tree serialization of a `WinProbabilityResult`
(the `asdict`/JSON export) round-trips field for field — reparsing the
serialized tree yields exactly the original result. Summary-only mode
does not round-trip the result: it contains only the derived summary
entries and omits fields such as `confidence_level`. -/
theorem claim_C9_amended : ∀ r : WinProbabilityResult,
    json_to_win_result (win_result_to_json r) = some r := by
  intro r
  cases r with
  | mk d w es rs ks c =>
    simp [win_result_to_json, json_to_win_result,
      read_list_roundtrip _ _ json_to_score_roundtrip,
      read_list_roundtrip _ _ json_to_risk_roundtrip,
      read_list_roundtrip _ _ json_to_string_val_roundtrip]

/-- C10: in every list returned by `_calculate_evaluation_scores`, all
entries carry the same `our_score`, the same `competitor_avg_score` and
hence the same `score_difference` — the two per-criterion scoring
helpers never read the criterion, so entries differ only in name,
weight and the weight-scaled difference. -/
theorem claim_C10 : ∀ (ec : List CriteriaDict) (im : InternalMatchDict)
    (ca : CompetitorAnalysisDict),
    ∀ s1 ∈ _calculate_evaluation_scores ec im ca,
    ∀ s2 ∈ _calculate_evaluation_scores ec im ca,
      s1.our_score = s2.our_score ∧
      s1.competitor_avg_score = s2.competitor_avg_score ∧
      s1.score_difference = s2.score_difference := by
  intro ec im ca s1 h1 s2 h2
  simp only [_calculate_evaluation_scores, List.mem_map] at h1 h2
  obtain ⟨c1, -, rfl⟩ := h1
  obtain ⟨c2, -, rfl⟩ := h2
  exact ⟨rfl, rfl, rfl⟩

/-- Concrete two-criterion input for the C10 witness. -/
def c10_criteria : List CriteriaDict := [⟨some "기술", some (1/2)⟩, ⟨some "가격", some (3/10)⟩]

/-- Concrete internal-match dict for the C10 witness. -/
def c10_match : InternalMatchDict := ⟨some "상", some 1⟩

/-- Concrete competitor-analysis dict for the C10 witness. -/
def c10_analysis : CompetitorAnalysisDict := ⟨none⟩

/-- C10 witness: the theorem applied to the two entries produced from
the concrete two-criterion input. -/
theorem claim_C10_witness :
    (⟨"기술", 1/2, 9/10, 1/2, 2/5, 1/5⟩ : EvaluationScore).our_score =
        (⟨"가격", 3/10, 9/10, 1/2, 2/5, 3/25⟩ : EvaluationScore).our_score ∧
    (⟨"기술", 1/2, 9/10, 1/2, 2/5, 1/5⟩ : EvaluationScore).competitor_avg_score =
        (⟨"가격", 3/10, 9/10, 1/2, 2/5, 3/25⟩ : EvaluationScore).competitor_avg_score ∧
    (⟨"기술", 1/2, 9/10, 1/2, 2/5, 1/5⟩ : EvaluationScore).score_difference =
        (⟨"가격", 3/10, 9/10, 1/2, 2/5, 3/25⟩ : EvaluationScore).score_difference := by
  have hL : _calculate_evaluation_scores c10_criteria c10_match c10_analysis =
      [⟨"기술", 1/2, 9/10, 1/2, 2/5, 1/5⟩, ⟨"가격", 3/10, 9/10, 1/2, 2/5, 3/25⟩] := by
    norm_num [c10_criteria, c10_match, c10_analysis, _calculate_evaluation_scores,
      _calculate_our_score, _calculate_competitor_score, pymin, pymax]
  exact claim_C10 c10_criteria c10_match c10_analysis _ (by simp [hL]) _ (by simp [hL])
